import Mathlib

/-!
Shallow embedding of `src/pipeline.py` (a parallel multi-pipeline evaluation
engine): label coercion, the tuning classifier (`Classifier`), the vectorizer
adapter (`VectorizerMixin`), the registries (`clf_models`, `vec_cls`), the job
runner (`exec_pipeline`), the aggregator (`listener`) and the dispatcher
(`__main__` block), together with theorems settling the spec claims.
-/

/- ## Label values and coercion (pipeline.py line 152) -/

/-- Model of a Python scalar value as it can appear in the `label` column. -/
inductive PyVal where
  | pybool : Bool → PyVal
  | pyint : Int → PyVal
  | pystr : String → PyVal
  | pynone : PyVal
deriving DecidableEq, Repr

/-- Python equality test `label == False`: `False == False`, `0 == False`
(and numerically equal values) are true; strings and `None` are not equal
to `False`. -/
def pyEqFalse : PyVal → Bool
  | .pybool b => !b
  | .pyint n => n == 0
  | .pystr _ => false
  | .pynone => false

/-- Embedding of the coercion `lambda label: 0 if label == False else 1`
applied to the label column (pipeline.py line 152). -/
def coerceLabel (v : PyVal) : PyVal :=
  if pyEqFalse v then .pyint 0 else .pyint 1

/- ## Registries (pipeline.py lines 71-102) -/

/-- Embedding of the `clf_models` registry: each registered classifier name
paired with the class name of its base algorithm instance.  The
`MultinomialNB` entry is commented out in the source and hence absent. -/
def clf_models : List (String × String) :=
  [("NaiveBayes", "GaussianNB"),
   ("SVC", "SVC"),
   ("DecisionTree", "DecisionTreeClassifier"),
   ("MLPClassifier", "MLPClassifier"),
   ("RandomForest", "RandomForestClassifier"),
   ("GradientBoosting", "GradientBoostingClassifier"),
   ("LogisticRegression", "LogisticRegression"),
   ("AdaBoost", "AdaBoostClassifier")]

/-- The registered classifier names, in registry order. -/
def clfNames : List String := clf_models.map Prod.fst

/-- Embedding of the `vec_cls` registry keys: the registered feature-strategy
names, in registry order. -/
def vecNames : List String := ["Word2Vec", "Word2Vec-TFIDF", "Tfidf", "FastText"]

/- ## Tuning classifier (pipeline.py lines 41-59) -/

/-- State of one `Classifier` instance: the class name of the wrapped base
model, whether the internal `GridSearchCV` object has completed a fit, and
whether the negative-embedding diagnostic has been printed. -/
structure ClassifierState where
  className : String
  gsFitted : Bool
  warned : Bool
deriving DecidableEq, Repr

/-- `Classifier.__init__`: the grid search is constructed but not fitted. -/
def classifierNew (className : String) : ClassifierState :=
  { className := className, gsFitted := false, warned := false }

/-- Negativity test on a dense feature matrix, embedding `(X < 0).any()`
of the `np.ndarray` branch of `Classifier.fit`. -/
def hasNegative (X : List (List Int)) : Bool :=
  X.any (fun row => row.any (fun a => decide (a < 0)))

/-- Embedding of `Classifier.fit` (pipeline.py lines 48-56).  The source
control flow is reproduced exactly: when the base model class name is
`MultinomialNB` the function returns without fitting — printing the
diagnostic only when the matrix has a negative entry — because the `else`
holding `self.gs.fit(X, y)` is attached to the outer `if`;
every other class name goes to the grid-search fit. -/
def classifierFit (c : ClassifierState) (X : List (List Int)) : ClassifierState :=
  if c.className = "MultinomialNB" then
    if hasNegative X then { c with warned := true }
    else c
  else { c with gsFitted := true }

/-- Embedding of `Classifier.predict` (pipeline.py lines 58-59): it delegates
to `self.gs.predict`, which raises `NotFittedError` when the grid search was
never fitted; `preds` stands for the delegated grid-search output. -/
def classifierPredict (c : ClassifierState) (preds : List Nat) :
    Except String (List Nat) :=
  if c.gsFitted then .ok preds else .error "NotFittedError"

/- ## Vectorizer adapter and pipeline fit (pipeline.py lines 61-69, 112-116) -/

/-- Modelled from the spec: the concrete feature-strategy classes live in the
`embedding` module, which is not part of this repository snapshot.  Per the
spec, a Feature Strategy Descriptor is a name plus a constructor that, given
the dataset, produces a fitted transformer capability, and the variants
include a frequency-based (bag-of-words) strategy whose output columns are
the vocabulary drawn from the corpus handed to the constructor.  The state
records the corpus given to the constructor, the rows given to `fit`, and
how many times `fit` has been invoked. -/
structure VectorizerModel where
  corpus : List String
  fittedOn : Option (List String)
  fitCount : Nat
deriving DecidableEq, Repr

/-- `VectorizerMixin.__init__` (pipeline.py lines 62-63): `self.model =
model(data)` — the constructor receives the full dataset `data`. -/
def vectorizerMixinInit (data : List String) : VectorizerModel :=
  { corpus := data, fittedOn := none, fitCount := 0 }

/-- `VectorizerMixin.fit` (pipeline.py lines 65-66): delegates to the wrapped
model, recording the rows it was fitted on. -/
def vectorizerMixinFit (v : VectorizerModel) (X : List String) : VectorizerModel :=
  { v with fittedOn := some X, fitCount := v.fitCount + 1 }

/-- Modelled from the spec: the transform of the frequency-based variant maps
each row to its count vector over the vocabulary derived from the corpus the
constructor received (rows are modelled as single tokens). -/
def vectorizerTransform (v : VectorizerModel) (X : List String) :
    List (List Nat) :=
  X.map (fun x => v.corpus.dedup.map (fun w => if x = w then 1 else 0))

/-- State of the two-step sklearn `Pipeline` built in `exec_pipeline`
(pipeline.py lines 112-114): the vectorizer step and what the classifier
step was fitted on. -/
structure PipelineState where
  vec : VectorizerModel
  clfFittedOn : Option (List (List Nat) × List Nat)
deriving DecidableEq, Repr

/-- Construction of the pipeline in `exec_pipeline`: the vectorizer adapter
is built from the full dataset `data`. -/
def pipelineInit (data : List String) : PipelineState :=
  { vec := vectorizerMixinInit data, clfFittedOn := none }

/-- Embedding of `clf.fit(X_train, y_train)` on the two-step pipeline
(sklearn `Pipeline.fit` semantics, as the spec describes the Pipeline
Adapter): fit the vectorizer on X, transform X with it, then fit the
classifier on the transformed features and y. -/
def pipelineFit (p : PipelineState) (X : List String) (y : List Nat) :
    PipelineState :=
  let v := vectorizerMixinFit p.vec X
  { vec := v, clfFittedOn := some (vectorizerTransform v X, y) }

/-- The fitted vectorizer state produced by one job that constructs the
pipeline from `data` and fits it on the training split `X`. -/
def jobFittedVectorizer (data X : List String) (y : List Nat) : VectorizerModel :=
  (pipelineFit (pipelineInit data) X y).vec

/- ## Train/test split call (pipeline.py lines 108-110) -/

/-- Arguments of a `train_test_split` invocation that the embedding tracks. -/
structure SplitConfig where
  testFraction : ℚ
  shuffle : Bool
  randomState : Option Nat
deriving DecidableEq, Repr

/-- The split call made by every `exec_pipeline` invocation:
`test_size=0.3, shuffle=True` and no `random_state` argument. -/
def execSplitConfig : SplitConfig :=
  { testFraction := 3 / 10, shuffle := true, randomState := none }

/-- Held-out row count for `n` rows: `train_test_split` allocates
`ceil(test_size * n)` rows to the test subset. -/
def testCount (n : Nat) : Nat := (3 * n + 9) / 10

/-- Training row count: the remaining rows. -/
def trainCount (n : Nat) : Nat := n - testCount n

/- ## Job runner outcome (pipeline.py lines 104-130) -/

/-- Observable outcome of one `exec_pipeline` invocation: the report record
put on the aggregation channel, if any, and the uncaught exception, if any. -/
structure JobOutcome where
  enqueued : Option String
  raised : Option String
deriving DecidableEq, Repr

/-- Embedding of the fit/predict/report tail of `exec_pipeline` (pipeline.py
lines 116-130): fit the classifier step on the transformed training features
`Xtr`; predict on the held-out split, returning silently on `NotFittedError`;
otherwise generate the report `report` and enqueue it. -/
def execPipelineJob (className : String) (Xtr : List (List Int))
    (preds : List Nat) (report : String) : JobOutcome :=
  let c := classifierFit (classifierNew className) Xtr
  match classifierPredict c preds with
  | .error _ => { enqueued := none, raised := none }
  | .ok _ => { enqueued := some report, raised := none }

/- ## Aggregator (pipeline.py lines 132-140) -/

/-- One file operation performed by the listener. -/
inductive FileEvent where
  | writeLine : String → FileEvent
  | flush : FileEvent
deriving DecidableEq, Repr

/-- Result of running the listener loop on the sequence of items enqueued on
the channel: the lines written, the items dequeued, and whether the loop
exited (it exits only via the sentinel test; on a queue that never carries
the sentinel the real loop blocks forever, modelled by `terminated = false`
after the finite enqueue sequence is exhausted). -/
structure ListenerRun where
  written : List String
  consumed : List String
  terminated : Bool
deriving DecidableEq, Repr

/-- Embedding of `listener` (pipeline.py lines 132-140): pull one item; if it
equals the string `done`, break; otherwise write its string form as one line
and flush, then loop. -/
def listenerRun : List String → ListenerRun
  | [] => { written := [], consumed := [], terminated := false }
  | m :: rest =>
    if m = "done" then
      { written := [], consumed := [m], terminated := true }
    else
      let r := listenerRun rest
      { written := m :: r.written, consumed := m :: r.consumed,
        terminated := r.terminated }

/-- The sequence of file operations the listener performs: for each item
before the first sentinel, one line write followed by one flush. -/
def listenerEvents : List String → List FileEvent
  | [] => []
  | m :: rest =>
    if m = "done" then []
    else .writeLine m :: .flush :: listenerEvents rest

/- ## Dispatcher (pipeline.py lines 142-178) -/

/-- The list of (classifier name, feature-strategy name) pairs submitted to
the pool, in the nesting order of the two `for` loops
(pipeline.py lines 167-171). -/
def dispatchedJobs : List (String × String) :=
  clfNames.flatMap (fun c => vecNames.map (fun v => (c, v)))

/-- Embedding of the pool size `mp.cpu_count()//2 + 2`
(pipeline.py line 160). -/
def poolSize (cpuCount : Nat) : Nat := cpuCount / 2 + 2

/-- The sequence of items that reach the aggregation channel over a whole
run: each job contributes its enqueued record if it produced one (`q.put`
happens before the corresponding `job.get()` returns), and the dispatcher
puts the sentinel only after `job.get()` has returned for every job
(pipeline.py lines 173-176), so every record precedes the sentinel;
`jobResults` ranges over every arrival order of the concurrent producers. -/
def dispatcherTrace (jobResults : List (Option String)) : List String :=
  jobResults.filterMap id ++ ["done"]

/-- Observable startup behaviour of the `__main__` block. -/
structure MainOutcome where
  exitCode : Nat
  usagePrinted : Bool
  diagnostic : Option String
  jobsScheduled : Nat
deriving DecidableEq, Repr

/-- Embedding of the argument and file checks of the `__main__` block
(pipeline.py lines 142-178): fewer than two entries in `sys.argv` prints the
usage line and calls `sys.exit` with a message (exit status 1); otherwise,
when the path exists the run proceeds and all jobs are submitted, and when
it does not exist the `if os.path.exists(fname)` block is skipped and the
process falls off the end of the script, exiting with status 0 and printing
nothing. -/
def mainRun (argc : Nat) (pathExists : Bool) : MainOutcome :=
  if argc < 2 then
    { exitCode := 1, usagePrinted := true,
      diagnostic := some "not enough arguments provided!", jobsScheduled := 0 }
  else if pathExists then
    { exitCode := 0, usagePrinted := false, diagnostic := none,
      jobsScheduled := dispatchedJobs.length }
  else
    { exitCode := 0, usagePrinted := false, diagnostic := none,
      jobsScheduled := 0 }

/- ## Helper lemmas -/

/-- A classifier whose base model is not `MultinomialNB` reaches the grid
search: its fit sets `gsFitted` whatever the feature matrix is. -/
theorem classifierFit_gsFitted_of_ne (cn : String) (X : List (List Int))
    (h : cn ≠ "MultinomialNB") :
    classifierFit (classifierNew cn) X = { className := cn, gsFitted := true, warned := false } := by
  simp [classifierFit, classifierNew, h]

/-- Running the listener on a queue whose items before the sentinel are all
distinct from it consumes everything, writes exactly those items, and
terminates at the sentinel. -/
theorem listenerRun_append_done (l : List String) (h : "done" ∉ l) :
    listenerRun (l ++ ["done"]) =
      { written := l, consumed := l ++ ["done"], terminated := true } := by
  induction l with
  | nil => simp [listenerRun]
  | cons m rest ih =>
    have hm : m ≠ "done" := fun e => h (e ▸ List.mem_cons_self m rest)
    have hrest : "done" ∉ rest := fun e => h (List.mem_cons_of_mem m e)
    simp [listenerRun, hm, ih hrest]

/-- The listener writes exactly the items that precede the first occurrence
of the sentinel value. -/
theorem listenerRun_written_takeWhile (queue : List String) :
    (listenerRun queue).written = queue.takeWhile (fun m => m != "done") := by
  induction queue with
  | nil => simp [listenerRun]
  | cons m rest ih =>
    by_cases hm : m = "done"
    · simp [listenerRun, hm, List.takeWhile]
    · simp [listenerRun, hm, List.takeWhile_cons, ih]

/-- The file operations are one line write plus one flush per written item. -/
theorem listenerEvents_eq (queue : List String) :
    listenerEvents queue =
      (listenerRun queue).written.flatMap
        (fun m => [FileEvent.writeLine m, FileEvent.flush]) := by
  induction queue with
  | nil => simp [listenerRun, listenerEvents]
  | cons m rest ih =>
    by_cases hm : m = "done"
    · simp [listenerRun, listenerEvents, hm]
    · simp [listenerRun, listenerEvents, hm, ih]

/- ## Claims -/

/-- C1: the dispatcher enqueues the sentinel exactly once and only after every
job has completed enqueuing, so — provided no report record equals the sentinel
value — the sentinel is the last item the aggregator consumes, and the
aggregator terminates its receive loop upon consuming it. -/
theorem C1_sentinel_protocol (jobResults : List (Option String))
    (h : "done" ∉ jobResults.filterMap id) :
    (dispatcherTrace jobResults).count "done" = 1 ∧
    (listenerRun (dispatcherTrace jobResults)).terminated = true ∧
    (listenerRun (dispatcherTrace jobResults)).consumed = dispatcherTrace jobResults ∧
    (listenerRun (dispatcherTrace jobResults)).consumed.getLast? = some "done" := by
  have hl := listenerRun_append_done (jobResults.filterMap id) h
  unfold dispatcherTrace
  rw [hl]
  refine ⟨?_, rfl, rfl, ?_⟩
  · rw [List.count_append, List.count_eq_zero.mpr h]
    simp
  · simp

/-- C1 witness: a concrete run of three jobs, one of which declined. -/
theorem C1_sentinel_protocol_witness :
    "done" ∉ ([some "r1", none, some "r2"] : List (Option String)).filterMap id ∧
    ((dispatcherTrace [some "r1", none, some "r2"]).count "done" = 1 ∧
     (listenerRun (dispatcherTrace [some "r1", none, some "r2"])).terminated = true ∧
     (listenerRun (dispatcherTrace [some "r1", none, some "r2"])).consumed =
       dispatcherTrace [some "r1", none, some "r2"] ∧
     (listenerRun (dispatcherTrace [some "r1", none, some "r2"])).consumed.getLast? =
       some "done") :=
  ⟨by decide, C1_sentinel_protocol [some "r1", none, some "r2"] (by decide)⟩

/-- C2: evaluation of `Classifier.fit` at the failing input.  With the base
model `MultinomialNB` and an all-non-negative matrix the fit performs no
training (the grid search is never fitted) and prints no diagnostic either —
the `else` holding `gs.fit` is attached to the outer `if`, so the claimed
"trained normally" case cannot happen; with a negative entry the refusal and
diagnostic do occur, and any other registered class name is always fitted. -/
theorem C2_multinomial_nonnegative_not_trained :
    (classifierFit (classifierNew "MultinomialNB") [[1, 2], [3, 4]]).gsFitted = false ∧
    (classifierFit (classifierNew "MultinomialNB") [[1, 2], [3, 4]]).warned = false ∧
    (classifierFit (classifierNew "MultinomialNB") [[-1, 2]]).gsFitted = false ∧
    (classifierFit (classifierNew "MultinomialNB") [[-1, 2]]).warned = true ∧
    classifierFit (classifierNew "GaussianNB") [[1, 2], [3, 4]] =
      { className := "GaussianNB", gsFitted := true, warned := false } := by
  decide

/-- C3 counterexample: dataset argument present (argc = 2) but naming a path
that does not exist — the process exits with status 0 and no diagnostic,
against the claimed non-zero exit. -/
theorem C3_counterexample :
    (mainRun 2 false).exitCode = 0 ∧ (mainRun 2 false).diagnostic = none ∧
    (mainRun 2 false).jobsScheduled = 0 := by
  decide

/-- C3 amended: a missing argument exits non-zero with the usage message
before any job is scheduled; a present argument naming a nonexistent path
schedules no job and the process terminates silently with exit status 0. -/
theorem C3_amended_startup (argc : Nat) (pathExists : Bool) :
    (argc < 2 →
      (mainRun argc pathExists).exitCode ≠ 0 ∧
      (mainRun argc pathExists).usagePrinted = true ∧
      (mainRun argc pathExists).jobsScheduled = 0) ∧
    (2 ≤ argc → pathExists = false →
      (mainRun argc pathExists).exitCode = 0 ∧
      (mainRun argc pathExists).diagnostic = none ∧
      (mainRun argc pathExists).jobsScheduled = 0) := by
  constructor
  · intro h
    simp [mainRun, h]
  · intro h hp
    have h2 : ¬ argc < 2 := not_lt.mpr h
    simp [mainRun, h2, hp]

/-- C3 witness: both startup branches at concrete inputs. -/
theorem C3_amended_startup_witness :
    ((mainRun 1 false).exitCode ≠ 0 ∧ (mainRun 1 false).usagePrinted = true ∧
      (mainRun 1 false).jobsScheduled = 0) ∧
    ((mainRun 2 false).exitCode = 0 ∧ (mainRun 2 false).diagnostic = none ∧
      (mainRun 2 false).jobsScheduled = 0) :=
  ⟨(C3_amended_startup 1 false).1 (by decide),
   (C3_amended_startup 2 false).2 (by decide) rfl⟩

/-- C4 counterexample: two jobs whose training split is the same single row
but whose datasets differ only in the held-out row produce different fitted
transformer states, and observably so — they transform that same training
split to different feature matrices — because the strategy constructor
receives the full dataset. -/
theorem C4_counterexample :
    jobFittedVectorizer ["a", "b"] ["a"] [1] ≠ jobFittedVectorizer ["a", "a"] ["a"] [1] ∧
    vectorizerTransform (jobFittedVectorizer ["a", "b"] ["a"] [1]) ["a"] ≠
      vectorizerTransform (jobFittedVectorizer ["a", "a"] ["a"] [1]) ["a"] := by
  decide

/-- C4 amended: in every job the pipeline fit invokes the feature strategy
fit exactly once, on that job training split X only, transforms X and hands
the transformed features with y to the classifier step; but the strategy
constructor receives the full shared dataset, so the fitted transformer
state carries data beyond the training split. -/
theorem C4_amended_pipeline_fit (data X : List String) (y : List Nat) :
    (jobFittedVectorizer data X y).fitCount = 1 ∧
    (jobFittedVectorizer data X y).fittedOn = some X ∧
    (jobFittedVectorizer data X y).corpus = data ∧
    (pipelineFit (pipelineInit data) X y).clfFittedOn =
      some (vectorizerTransform (jobFittedVectorizer data X y) X, y) :=
  ⟨rfl, rfl, rfl, rfl⟩

/-- C5: the dispatcher submits exactly one task per pair of the cross product
of the registered classifier names with the registered feature-strategy
names — the job list equals the cross product and has no duplicate — and the
pool size is half the processing units (integer division) plus two. -/
theorem C5_cross_product (cpuCount : Nat) :
    dispatchedJobs = clfNames.product vecNames ∧
    dispatchedJobs.Nodup ∧
    dispatchedJobs.length = clfNames.length * vecNames.length ∧
    poolSize cpuCount = cpuCount / 2 + 2 :=
  ⟨by decide, by decide, by decide, rfl⟩

/-- C6: when the classifier step never completed fitting (as after a declined
fit), predict raises the not-fitted condition and the job runner terminates
silently — nothing enqueued, no error surfaced; and predict delegates the
grid-search output once fitted. -/
theorem C6_not_fitted_silent (className : String) (Xtr : List (List Int))
    (preds : List Nat) (report : String)
    (h : (classifierFit (classifierNew className) Xtr).gsFitted = false) :
    classifierPredict (classifierFit (classifierNew className) Xtr) preds =
      .error "NotFittedError" ∧
    execPipelineJob className Xtr preds report =
      { enqueued := none, raised := none } ∧
    classifierPredict { className := className, gsFitted := true, warned := false }
      preds = .ok preds := by
  refine ⟨?_, ?_, rfl⟩
  · simp [classifierPredict, h]
  · simp [execPipelineJob, classifierPredict, h]

/-- C6 witness: the declined-fit job (MultinomialNB on a matrix with a
negative entry) enqueues nothing and raises nothing. -/
theorem C6_not_fitted_silent_witness :
    (classifierFit (classifierNew "MultinomialNB") [[-1]]).gsFitted = false ∧
    (classifierPredict (classifierFit (classifierNew "MultinomialNB") [[-1]]) [] =
       .error "NotFittedError" ∧
     execPipelineJob "MultinomialNB" [[-1]] [] "report" =
       { enqueued := none, raised := none } ∧
     classifierPredict { className := "MultinomialNB", gsFitted := true, warned := false }
       [] = .ok []) :=
  ⟨by decide, C6_not_fitted_silent "MultinomialNB" [[-1]] [] "report" (by decide)⟩

/-- C7: every job calls the splitter with held-out fraction 3/10, shuffling
on, and no seed (fresh randomness per call, nothing shared across jobs); the
two subsets always partition the rows, and on a row count divisible by 10
the training subset is exactly 70 percent and the held-out subset exactly
30 percent of the rows. -/
theorem C7_split_config (n : Nat) (h : 10 ∣ n) :
    execSplitConfig.testFraction = 3 / 10 ∧
    execSplitConfig.shuffle = true ∧
    execSplitConfig.randomState = none ∧
    testCount n = 3 * n / 10 ∧
    trainCount n = 7 * n / 10 ∧
    trainCount n + testCount n = n := by
  obtain ⟨k, rfl⟩ := h
  refine ⟨rfl, rfl, rfl, ?_, ?_, ?_⟩
  · unfold testCount; omega
  · unfold trainCount testCount; omega
  · unfold trainCount testCount; omega

/-- C7 witness: a 10-row dataset splits into 7 training and 3 held-out rows. -/
theorem C7_split_config_witness :
    (10 ∣ 10) ∧
    (execSplitConfig.testFraction = 3 / 10 ∧
     execSplitConfig.shuffle = true ∧
     execSplitConfig.randomState = none ∧
     testCount 10 = 3 * 10 / 10 ∧
     trainCount 10 = 7 * 10 / 10 ∧
     trainCount 10 + testCount 10 = 10) :=
  ⟨⟨1, rfl⟩, C7_split_config 10 ⟨1, rfl⟩⟩

/-- C8: label coercion is idempotent — coercing twice equals coercing once,
and the already-coerced values 0 and 1 are fixed points (in particular the
Python test 0 == False holds, so 0 stays 0). -/
theorem C8_coercion_idempotent (v : PyVal) :
    coerceLabel (coerceLabel v) = coerceLabel v ∧
    coerceLabel (.pyint 0) = .pyint 0 ∧
    coerceLabel (.pyint 1) = .pyint 1 := by
  refine ⟨?_, rfl, rfl⟩
  have h01 : coerceLabel v = .pyint 0 ∨ coerceLabel v = .pyint 1 := by
    unfold coerceLabel
    by_cases h : pyEqFalse v = true
    · exact Or.inl (if_pos h)
    · exact Or.inr (if_neg h)
  rcases h01 with h | h <;> rw [h] <;> decide

/-- C9: no dispatched pair resolves to a base model of class MultinomialNB —
the registry lookup of every dispatched classifier name succeeds with a class
name different from MultinomialNB — so the refusal branch of the fit is
unreachable in dispatched jobs: on every feature matrix the fit reaches the
grid search and prints no diagnostic. -/
theorem C9_no_multinomial (p : String × String) (X : List (List Int))
    (h : p ∈ dispatchedJobs) :
    (clf_models.lookup p.1).isSome = true ∧
    clf_models.lookup p.1 ≠ some "MultinomialNB" ∧
    (classifierFit (classifierNew ((clf_models.lookup p.1).getD "")) X).gsFitted = true ∧
    (classifierFit (classifierNew ((clf_models.lookup p.1).getD "")) X).warned = false := by
  fin_cases h <;>
    exact ⟨by decide, by decide,
      by rw [classifierFit_gsFitted_of_ne _ X (by decide)],
      by rw [classifierFit_gsFitted_of_ne _ X (by decide)]⟩

/-- C9 witness: the first dispatched pair at a concrete matrix. -/
theorem C9_no_multinomial_witness :
    ("NaiveBayes", "Word2Vec") ∈ dispatchedJobs ∧
    ((clf_models.lookup "NaiveBayes").isSome = true ∧
     clf_models.lookup "NaiveBayes" ≠ some "MultinomialNB" ∧
     (classifierFit (classifierNew ((clf_models.lookup "NaiveBayes").getD ""))
        [[0]]).gsFitted = true ∧
     (classifierFit (classifierNew ((clf_models.lookup "NaiveBayes").getD ""))
        [[0]]).warned = false) :=
  ⟨by decide, C9_no_multinomial ("NaiveBayes", "Word2Vec") [[0]] (by decide)⟩

/-- C10: the sentinel is the plain string done, compared by value — the
listener stops at the first dequeued item equal to it, writes exactly the
items dequeued before that first occurrence, one line plus one flush per
item; consequently a record equal to the sentinel value (as in the concrete
queue below, where it arrives before the dispatcher sentinel) terminates the
aggregator early and is not written. -/
theorem C10_listener_sentinel (queue : List String) :
    (listenerRun queue).written = queue.takeWhile (fun m => m != "done") ∧
    listenerEvents queue =
      (queue.takeWhile (fun m => m != "done")).flatMap
        (fun m => [FileEvent.writeLine m, FileEvent.flush]) ∧
    listenerRun ["r1", "done", "r2", "done"] =
      { written := ["r1"], consumed := ["r1", "done"], terminated := true } := by
  refine ⟨listenerRun_written_takeWhile queue, ?_, by decide⟩
  rw [listenerEvents_eq, listenerRun_written_takeWhile]
